import Mathlib

/-!
Shallow embedding of the kpng service-proxy core: the iptables-backend
service change tracker and snapshot (src/backends/iptables/service.go)
and the userspacelin bounded-frequency runner utilities
(src/backends/userspacelin/userspace_util.go).

Go maps are embedded as association lists (`GoMap`): `insertKV` is map
assignment (replace the existing binding or append a new one), `lookupKV`
is indexing, `eraseKV` is `delete`.  A Go `nil` pointer to a map is an
`Option` `none`; a Go nil map and an empty map are observationally equal
in this code (both range over nothing and have length 0), so the map
itself is the plain association list.
-/

/-- A Go map embedded as an association list with unique-key discipline
maintained by `insertKV`. -/
abbrev GoMap (K V : Type) : Type := List (K × V)

/-- Go map assignment `m[k] = v`: replace the first binding of `k`, or
append a new binding when `k` is absent. -/
def insertKV {K V : Type} [DecidableEq K] : GoMap K V → K → V → GoMap K V
  | [], k, v => [(k, v)]
  | e :: rest, k, v => if e.1 = k then (k, v) :: rest else e :: insertKV rest k v

/-- Go map indexing `m[k]` as an `Option`. -/
def lookupKV {K V : Type} [DecidableEq K] : GoMap K V → K → Option V
  | [], _ => none
  | e :: rest, k => if e.1 = k then some e.2 else lookupKV rest k

/-- Go `delete(m, k)`. -/
def eraseKV {K V : Type} [DecidableEq K] : GoMap K V → K → GoMap K V
  | [], _ => []
  | e :: rest, k => if e.1 = k then eraseKV rest k else e :: eraseKV rest k

/-- `sets.String.Insert`: a string set embedded as a duplicate-free list. -/
def insertSet (st : List String) (s : String) : List String :=
  if s ∈ st then st else st ++ [s]

/-- Modelled from the spec: `localnetv1.Protocol` (the localnetv1 API package
is not among the staged files).  Spec §3: `protocol`: one of {TCP, UDP, SCTP}. -/
inductive Protocol : Type
  | TCP
  | UDP
  | SCTP
deriving DecidableEq, Repr

/-- `k8s.io/apimachinery/pkg/types.NamespacedName`. -/
structure NamespacedName : Type where
  Namespace : String
  Name : String
deriving DecidableEq, Repr

/-- Modelled from the spec: `ServicePortName` (declared outside the staged
files; used in `serviceToServiceMap`).  Spec §3: tuple
(namespace, name, port-name, protocol); the `Port` field holds the port name. -/
structure ServicePortName : Type where
  NamespacedName : NamespacedName
  Port : String
  Protocol : Protocol
deriving DecidableEq, Repr

/-- Modelled from the spec: `v1.IPFamily` (single-stack family selector). -/
inductive IPFamily : Type
  | IPv4
  | IPv6
deriving DecidableEq, Repr

/-- Modelled from the spec: `localnetv1.IPSet`, a family-keyed set of IP
strings (spec §6: `{v4:[],v6:[]}`). -/
structure IPSet : Type where
  V4 : List String
  V6 : List String
deriving DecidableEq, Repr

/-- Modelled from the spec: `localnetv1.Service_IPs` (spec §6: `ips`).
`LoadBalancerIPs` is a pointer in Go and `getLoadBalancerIPs` nil-checks it,
hence the `Option`; `ClusterIPs` and `ExternalIPs` are dereferenced
unconditionally by the staged code. -/
structure ServiceIPs : Type where
  ClusterIPs : IPSet
  ExternalIPs : IPSet
  LoadBalancerIPs : Option IPSet
deriving DecidableEq, Repr

/-- Modelled from the spec: `localnetv1.IPFilter` (spec §6:
`ip_filters`: list of `{source_ranges: []string}`). -/
structure IPFilter : Type where
  SourceRanges : List String
deriving DecidableEq, Repr

/-- Modelled from the spec: `localnetv1.ClientIP` session-affinity payload
(spec §6: `{client_ip: {timeout_seconds:i32}}`). -/
structure ClientIP : Type where
  TimeoutSeconds : Int
deriving DecidableEq, Repr

/-- Modelled from the spec: `localnetv1.PortMapping` (spec §6: `ports`:
list of `{name, protocol, port:i32, target_port:i32, target_port_name:string,
node_port:i32}`). -/
structure PortMapping : Type where
  Name : String
  Protocol : Protocol
  Port : Int
  TargetPort : Int
  TargetPortName : String
  NodePort : Int
deriving DecidableEq, Repr

/-- Modelled from the spec: `localnetv1.Service` (spec §6).  The
session-affinity oneof is `none` | client-IP payload; the boolean external
traffic policy flag backs `RequestsOnlyLocalTraffic`.  `Type'` embeds the Go
field `Type`, which is a Lean keyword. -/
structure Service : Type where
  Namespace : String
  Name : String
  Type' : String
  Annotations : GoMap String String
  IPs : ServiceIPs
  IPFilters : List IPFilter
  Ports : List PortMapping
  SessionAffinity : Option ClientIP
  ExternalTrafficToLocal : Bool
deriving DecidableEq, Repr

/-- `SessionAffinity` struct of the iptables backend: data about assigned
session affinity. -/
structure SessionAffinity : Type where
  ClientIP : Option ClientIP
deriving DecidableEq, Repr

/-- `BaseServiceInfo`: base information that defines a service port.
`clusterIP` holds the string form of the parsed IP (`net.IP` round-trips
parse/print for the well-formed addresses this development evaluates);
`internalTrafficPolicy` is a pointer the staged code never sets. -/
structure BaseServiceInfo : Type where
  clusterIP : String
  port : Int
  protocol : Protocol
  nodePort : Int
  loadBalancerIPs : List String
  sessionAffinity : SessionAffinity
  stickyMaxAgeSeconds : Int
  externalIPs : List String
  loadBalancerSourceRanges : List String
  healthCheckNodePort : Int
  nodeLocalExternal : Bool
  nodeLocalInternal : Bool
  internalTrafficPolicy : Option String
  hintsAnnotation : String
  targetPort : Int
  targetPortName : String
  portName : String
deriving DecidableEq, Repr

/-- The `ServicePort` interface value stored in a service change: either a
bare `*BaseServiceInfo` (when the tracker has no `makeServiceInfo`) or the
iptables `*serviceInfo` wrapper produced by `newServiceInfo` (base info plus
the precomputed name/chain strings, abstracted to the name string). -/
inductive ServicePort : Type
  | base (info : BaseServiceInfo)
  | svcInfo (info : BaseServiceInfo) (serviceNameString : String)
deriving DecidableEq, Repr

/-- The `BaseServiceInfo` underlying a `ServicePort` interface value. -/
def ServicePort.info : ServicePort → BaseServiceInfo
  | .base i => i
  | .svcInfo i _ => i

/-- `ServicePort.Protocol()` accessor. -/
def ServicePort.Protocol (sp : ServicePort) : Protocol := sp.info.protocol

/-- `ServicePort.ClusterIP().String()`. -/
def ServicePort.ClusterIPString (sp : ServicePort) : String := sp.info.clusterIP

/-- `ServicePort.HealthCheckNodePort()` accessor. -/
def ServicePort.HealthCheckNodePort (sp : ServicePort) : Int :=
  sp.info.healthCheckNodePort

/-- `serviceChange`: map from service-port name to the materialized port. -/
abbrev serviceChange : Type := GoMap ServicePortName ServicePort

/-- `ServicesSnapshot`: the applied state, keyed by namespace/name. -/
abbrev ServicesSnapshot : Type := GoMap NamespacedName serviceChange

/-- `makeServicePortFunc`: backend decoration hook. -/
abbrev makeServicePortFunc : Type := PortMapping → Service → BaseServiceInfo → ServicePort

/-- `ServiceChangeTracker`: pending per-service changes.  A value of the
items map is a `*serviceChange` pointer: `none` is the `nil` deletion
sentinel written by `Delete`, `some` the pointer written by `Update`.
The event recorder is log-only and dropped. -/
structure ServiceChangeTracker : Type where
  items : GoMap NamespacedName (Option serviceChange)
  makeServiceInfo : Option makeServicePortFunc
  ipFamily : IPFamily

/-- `NewServiceChangeTracker`. -/
def NewServiceChangeTracker (makeServiceInfo : Option makeServicePortFunc)
    (ipFamily : IPFamily) : ServiceChangeTracker :=
  { items := [], makeServiceInfo := makeServiceInfo, ipFamily := ipFamily }

/-- Modelled from the spec: `GetClusterIPByFamily` (declared outside the
staged files).  Spec §4.A step 1: resolve `cluster_ip` from the Service's
family-keyed IP set; absent means the empty string. -/
def GetClusterIPByFamily (ipFamily : IPFamily) (service : Service) : String :=
  match ipFamily with
  | .IPv4 => service.IPs.ClusterIPs.V4.headD ""
  | .IPv6 => service.IPs.ClusterIPs.V6.headD ""

/-- Modelled from the spec: `RequestsOnlyLocalTraffic` (declared outside the
staged files).  Spec §3: `node_local_external` boolean, driven by the
service's external traffic policy. -/
def RequestsOnlyLocalTraffic (service : Service) : Bool :=
  service.ExternalTrafficToLocal

/-- Modelled from the spec: `MapIPsByIPFamily` specialised to one family
lookup (spec §3 invariant I4: the sets are family-keyed and filtered to the
tracker's family). -/
def mapIPsByIPFamily (ips : IPSet) (ipFamily : IPFamily) : List String :=
  match ipFamily with
  | .IPv4 => ips.V4
  | .IPv6 => ips.V6

/-- `v1.AnnotationTopologyAwareHints`. -/
def AnnotationTopologyAwareHints : String :=
  "service.kubernetes.io/topology-aware-hints"

/-- `getSessionAffinity`: keep the client-IP payload when the oneof carries
one. -/
def getSessionAffinity (affinity : Option ClientIP) : SessionAffinity :=
  { ClientIP := affinity }

/-- `getLoadBalancerIPs`: nil set gives nothing; IPv4 selects `V4`, any other
family the `V6` branch. -/
def getLoadBalancerIPs (ips : Option IPSet) (ipFamily : IPFamily) : List String :=
  match ips with
  | none => []
  | some s => if ipFamily = .IPv4 then s.V4 else s.V6

/-- `getLoadbalancerSourceRanges`: concatenate every filter's non-empty
source-range list. -/
def getLoadbalancerSourceRanges (filters : List IPFilter) : List String :=
  filters.foldl
    (fun acc filter =>
      if filter.SourceRanges.length ≤ 0 then acc else acc ++ filter.SourceRanges)
    []

/-- `ServiceChangeTracker.newBaseServiceInfo`.  The health-check node port
assignment is commented out in the source, so the field keeps Go's zero
value; `nodeLocalInternal` and `internalTrafficPolicy` likewise. -/
def ServiceChangeTracker.newBaseServiceInfo (sct : ServiceChangeTracker)
    (port : PortMapping) (service : Service) : BaseServiceInfo :=
  let nodeLocalExternal := RequestsOnlyLocalTraffic service
  let clusterIP := GetClusterIPByFamily sct.ipFamily service
  { clusterIP := clusterIP
    port := port.Port
    portName := port.Name
    targetPort := port.TargetPort
    targetPortName := port.TargetPortName
    protocol := port.Protocol
    nodePort := port.NodePort
    nodeLocalExternal := nodeLocalExternal
    nodeLocalInternal := false
    internalTrafficPolicy := none
    hintsAnnotation := (lookupKV service.Annotations AnnotationTopologyAwareHints).getD ""
    loadBalancerSourceRanges := getLoadbalancerSourceRanges service.IPFilters
    loadBalancerIPs := getLoadBalancerIPs service.IPs.LoadBalancerIPs sct.ipFamily
    sessionAffinity := getSessionAffinity service.SessionAffinity
    externalIPs := mapIPsByIPFamily service.IPs.ExternalIPs sct.ipFamily
    healthCheckNodePort := 0
    stickyMaxAgeSeconds := 0 }

/-- `NamespacedName.String()`: "namespace/name". -/
def NamespacedName.toNameString (nn : NamespacedName) : String :=
  nn.Namespace ++ "/" ++ nn.Name

/-- `ServicePortName.String()`: namespaced name plus the port name. -/
def ServicePortName.toNameString (spn : ServicePortName) : String :=
  spn.NamespacedName.toNameString ++ ":" ++ spn.Port

/-- `newServiceInfo`: wrap a `BaseServiceInfo` into the iptables
`serviceInfo` (the chain names it precomputes are derived from
`serviceNameString` and abstracted away). -/
def newServiceInfo (port : PortMapping) (service : Service)
    (baseInfo : BaseServiceInfo) : ServicePort :=
  let svcName : NamespacedName := { Namespace := service.Namespace, Name := service.Name }
  let svcPortName : ServicePortName :=
    { NamespacedName := svcName, Port := port.Name, Protocol := baseInfo.protocol }
  .svcInfo baseInfo svcPortName.toNameString

/-- `ServiceChangeTracker.serviceToServiceMap`: nil service or an absent
family cluster IP give the nil map (embedded as the empty list); otherwise
one entry per declared port, decorated through `makeServiceInfo` when the
tracker has one. -/
def ServiceChangeTracker.serviceToServiceMap (sct : ServiceChangeTracker)
    (service : Option Service) : serviceChange :=
  match service with
  | none => []
  | some svc =>
    if GetClusterIPByFamily sct.ipFamily svc = "" then []
    else
      let svcName : NamespacedName := { Namespace := svc.Namespace, Name := svc.Name }
      svc.Ports.foldl
        (fun serviceMap servicePort =>
          let svcPortName : ServicePortName :=
            { NamespacedName := svcName, Port := servicePort.Name
              Protocol := servicePort.Protocol }
          let baseSvcInfo := sct.newBaseServiceInfo servicePort svc
          match sct.makeServiceInfo with
          | some f => insertKV serviceMap svcPortName (f servicePort svc baseSvcInfo)
          | none => insertKV serviceMap svcPortName (.base baseSvcInfo))
        []

/-- `ServiceChangeTracker.Update`, restricted to its non-panicking
executions: a nil service returns false untouched; otherwise store the
freshly materialized change under (namespace, name) and report whether
items is non-empty.  When the key is absent Go allocates a fresh
`*serviceChange` cell, and when it holds a non-nil pointer Go assigns
through it — both are map assignment.  When the key holds the nil
deletion sentinel left by `Delete`, the Go code instead dereferences the
nil `*serviceChange` and panics; this total function collapses that case
into the overwrite, and `UpdateE` below is the faithful fallible
embedding that keeps the panic. -/
def ServiceChangeTracker.Update (sct : ServiceChangeTracker)
    (current : Option Service) : Bool × ServiceChangeTracker :=
  match current with
  | none => (false, sct)
  | some svc =>
    let namespacedName : NamespacedName := { Namespace := svc.Namespace, Name := svc.Name }
    let items' := insertKV sct.items namespacedName (some (sct.serviceToServiceMap (some svc)))
    (decide (0 < items'.length), { sct with items := items' })

/-- `ServiceChangeTracker.Update`, faithful including the failure path: a
nil service returns false untouched.  Otherwise Go looks up
`sct.items[namespacedName]`: on a miss it allocates a fresh
`*serviceChange` cell and stores it, then does
`*change = sct.serviceToServiceMap(current)`.  When the lookup hits the
nil pointer stored by `Delete`, that assignment dereferences a nil map
pointer and panics (embedded as `Except.error`); in every other case the
net effect is map assignment of the recomputed change. -/
def ServiceChangeTracker.UpdateE (sct : ServiceChangeTracker)
    (current : Option Service) : Except String (Bool × ServiceChangeTracker) :=
  match current with
  | none => .ok (false, sct)
  | some svc =>
    let namespacedName : NamespacedName := { Namespace := svc.Namespace, Name := svc.Name }
    match lookupKV sct.items namespacedName with
    | some none => .error "assignment through nil *serviceChange"
    | _ =>
      let items' := insertKV sct.items namespacedName (some (sct.serviceToServiceMap (some svc)))
      .ok (decide (0 < items'.length), { sct with items := items' })

/-- `ServiceChangeTracker.Delete`: store the nil sentinel under the key and
report whether items is non-empty. -/
def ServiceChangeTracker.Delete (sct : ServiceChangeTracker)
    (ns name : String) : Bool × ServiceChangeTracker :=
  let namespacedName : NamespacedName := { Namespace := ns, Name := name }
  let items' := insertKV sct.items namespacedName none
  (decide (0 < items'.length), { sct with items := items' })

/-- Fold of `ServicesSnapshot.merge`'s stale-UDP collection over one
pre-image: insert the cluster IP of every UDP port.  (`string(Protocol())`
against `string(v1.ProtocolUDP)` is embedded as the UDP test on the
spec-modelled protocol enum.) -/
def collectUDPStale (udpStale : List String) (m : serviceChange) : List String :=
  m.foldl
    (fun st e => if e.2.Protocol = Protocol.UDP then insertSet st e.2.ClusterIPString else st)
    udpStale

/-- The stale set one nil-sentinel merge produces from a pre-image alone. -/
def udpClusterIPsOfChange (m : serviceChange) : List String :=
  collectUDPStale [] m

/-- `ServicesSnapshot.merge`: the nil sentinel records every UDP cluster IP
of the pre-image and removes the key; a non-nil change (empty or not)
replaces the entry wholesale. -/
def ServicesSnapshot.merge (svcSnap : ServicesSnapshot) (svcName : NamespacedName)
    (other : Option serviceChange) (udpStale : List String) :
    ServicesSnapshot × List String :=
  match other with
  | none =>
    let pre := (lookupKV svcSnap svcName).getD []
    (eraseKV svcSnap svcName, collectUDPStale udpStale pre)
  | some m => (insertKV svcSnap svcName m, udpStale)

/-- `ServicesSnapshot.apply`: merge every pending change, then clear the
tracker's items. -/
def ServicesSnapshot.apply (svcSnap : ServicesSnapshot)
    (changes : ServiceChangeTracker) (udpStale : List String) :
    ServicesSnapshot × List String × ServiceChangeTracker :=
  let merged := changes.items.foldl
    (fun (acc : ServicesSnapshot × List String) e =>
      ServicesSnapshot.merge acc.1 e.1 e.2 acc.2)
    (svcSnap, udpStale)
  (merged.1, merged.2, { changes with items := [] })

/-- `UpdateServiceMapResult`. -/
structure UpdateServiceMapResult : Type where
  HCServiceNodePorts : GoMap NamespacedName Int
  UDPStaleClusterIP : List String
deriving DecidableEq, Repr

/-- One step of the health-check scan: a port that is not the iptables
`*serviceInfo` fails the type assertion and is skipped; a decorated port
with a non-zero health-check node port is recorded under the service's
namespaced name, converted to `uint16`. -/
def hcFromPort (acc : GoMap NamespacedName Int) (nn : NamespacedName)
    (sp : ServicePort) : GoMap NamespacedName Int :=
  match sp with
  | .base _ => acc
  | .svcInfo info _ =>
    if info.healthCheckNodePort ≠ 0 then
      insertKV acc nn (info.healthCheckNodePort % 65536)
    else acc

/-- The health-check scan over one snapshot entry. -/
def hcFromChange (acc : GoMap NamespacedName Int) (nn : NamespacedName)
    (m : serviceChange) : GoMap NamespacedName Int :=
  m.foldl (fun a e => hcFromPort a nn e.2) acc

/-- The health-check scan over the whole snapshot, from a given
accumulator. -/
def hcScanAux (acc : GoMap NamespacedName Int) (svcSnap : ServicesSnapshot) :
    GoMap NamespacedName Int :=
  svcSnap.foldl (fun a e => hcFromChange a e.1 e.2) acc

/-- `ServicesSnapshot.Update`'s rebuild of `HCServiceNodePorts` by scanning
the entire post-apply snapshot. -/
def hcScan (svcSnap : ServicesSnapshot) : GoMap NamespacedName Int :=
  hcScanAux [] svcSnap

/-- What `ServicesSnapshot.Update` leaves behind: the mutated snapshot, the
result, and the cleared tracker. -/
structure SnapshotUpdateOut : Type where
  snapshot : ServicesSnapshot
  result : UpdateServiceMapResult
  tracker : ServiceChangeTracker

/-- `ServicesSnapshot.Update`: apply the pending changes into a fresh stale
set, then rebuild the health-check node-port table from the post-apply
snapshot. -/
def ServicesSnapshot.Update (svcSnap : ServicesSnapshot)
    (changes : ServiceChangeTracker) : SnapshotUpdateOut :=
  let applied := svcSnap.apply changes []
  { snapshot := applied.1
    result := { UDPStaleClusterIP := applied.2.1, HCServiceNodePorts := hcScan applied.1 }
    tracker := applied.2.2 }

/-- `IsServiceIPSet`: some cluster IP of either family is set. -/
def IsServiceIPSet (service : Service) : Bool :=
  0 < service.IPs.ClusterIPs.V4.length || 0 < service.IPs.ClusterIPs.V6.length

/-- `ShouldSkipService`: no cluster IP, or type ExternalName. -/
def ShouldSkipService (service : Service) : Bool :=
  if !IsServiceIPSet service then true
  else if service.Type' = "ExternalName" then true
  else false

/-- The rate limiter `construct` picks: the null limiter for
`minInterval = 0`, else the token bucket derived from `minInterval` and
`burstRuns` (its float QPS is kept symbolically as the pair). -/
inductive RateLimiterModel : Type
  | null
  | tokenBucket (minInterval : Int) (burst : Int)
deriving DecidableEq, Repr

/-- The injected timer capability.  Only its identity matters to
`construct`; the deadline it tracks lives in `RunnerState`. -/
structure TimerModel : Type where
  id : Int
deriving DecidableEq, Repr

/-- `BoundedFrequencyRunner`'s configuration as `construct` builds it.
Durations are Go `time.Duration` values embedded as integers
(nanoseconds); `fn` and the signal channels carry no data and are
dropped. -/
structure BoundedFrequencyRunner : Type where
  name : String
  minInterval : Int
  maxInterval : Int
  limiter : RateLimiterModel
  timer : TimerModel
deriving DecidableEq, Repr

/-- `construct`: panic (embedded as `Except.error`) when
`maxInterval < minInterval`, then when the injected timer is nil;
otherwise build the runner, with the null limiter exactly when
`minInterval = 0`. -/
def construct (name : String) (minInterval maxInterval : Int) (burstRuns : Int)
    (timer : Option TimerModel) : Except String BoundedFrequencyRunner :=
  if maxInterval < minInterval then
    .error (name ++ ": maxInterval must be >= minInterval")
  else
    match timer with
    | none => .error (name ++ ": timer must be non-nil")
    | some t =>
      .ok { name := name
            minInterval := minInterval
            maxInterval := maxInterval
            limiter := if minInterval = 0 then .null
                       else .tokenBucket minInterval burstRuns
            timer := t }

/-- Whether an `Except` is a success (`construct` did not panic). -/
def exceptIsOk {ε α : Type} : Except ε α → Bool
  | .ok _ => true
  | .error _ => false

/-- The runner state the retry path touches: the timer's clock (`now`), its
pending absolute deadline (`timerNext`, so `Remaining() = timerNext - now`),
and `retryTime` (`none` embeds Go's zero `time.Time`). -/
structure RunnerState : Type where
  now : Int
  timerNext : Int
  retryTime : Option Int
deriving DecidableEq, Repr

/-- `timer.Remaining()`: time until the pending fire (negative if
overdue). -/
def RunnerState.Remaining (s : RunnerState) : Int :=
  s.timerNext - s.now

/-- `BoundedFrequencyRunner.RetryAfter`: record
`retryTime = now + interval`, unless an earlier retry time is already
recorded (`existing.Before(new)` keeps the existing one). -/
def RunnerState.RetryAfter (s : RunnerState) (interval : Int) : RunnerState :=
  let retryTime := s.now + interval
  match s.retryTime with
  | some existing =>
    if existing < retryTime then s else { s with retryTime := some retryTime }
  | none => { s with retryTime := some retryTime }

/-- `BoundedFrequencyRunner.doRetry`: a zero `retryTime` is a spurious
wakeup; otherwise clear it and, only when the requested interval is
strictly below the timer's remaining time, stop the timer and reset it to
the retry interval (so the new deadline is `now + (retryTime - now)`). -/
def RunnerState.doRetry (s : RunnerState) : RunnerState :=
  match s.retryTime with
  | none => s
  | some rt =>
    let retryInterval := rt - s.now
    if retryInterval < s.Remaining then
      { s with retryTime := none, timerNext := s.now + retryInterval }
    else
      { s with retryTime := none }

/-- One call against the change tracker: `Update` with a (possibly nil)
service, or `Delete` with a namespace and name. -/
inductive TrackerOp : Type
  | update (s : Option Service)
  | delete (ns name : String)

/-- Run a sequence of tracker calls. -/
def runOps (sct : ServiceChangeTracker) : List TrackerOp → ServiceChangeTracker
  | [] => sct
  | op :: rest =>
    match op with
    | .update s => runOps (sct.Update s).2 rest
    | .delete ns name => runOps (sct.Delete ns name).2 rest

/-- The scenario behind spec §8 item 2: from an empty snapshot and tracker,
`Update(S)` then Apply, then `Delete(S.ns, S.name)` then Apply.  Returns the
two Apply outcomes. -/
def updateThenDeletePipeline (msi : Option makeServicePortFunc) (fam : IPFamily)
    (S : Service) : SnapshotUpdateOut × SnapshotUpdateOut :=
  let sct0 := NewServiceChangeTracker msi fam
  let u := sct0.Update (some S)
  let out1 := ServicesSnapshot.Update [] u.2
  let d := out1.tracker.Delete S.Namespace S.Name
  let out2 := ServicesSnapshot.Update out1.snapshot d.2
  (out1, out2)

/-- A `BaseServiceInfo` with every field at Go's zero value. -/
def defaultBaseInfo : BaseServiceInfo :=
  { clusterIP := ""
    port := 0
    protocol := .TCP
    nodePort := 0
    loadBalancerIPs := []
    sessionAffinity := { ClientIP := none }
    stickyMaxAgeSeconds := 0
    externalIPs := []
    loadBalancerSourceRanges := []
    healthCheckNodePort := 0
    nodeLocalExternal := false
    nodeLocalInternal := false
    internalTrafficPolicy := none
    hintsAnnotation := ""
    targetPort := 0
    targetPortName := ""
    portName := "" }

/-- An iptables tracker with no decoration hook, IPv4 family, no pending
items. -/
def sctEmptyV4 : ServiceChangeTracker := NewServiceChangeTracker none .IPv4

/-- Key of the concrete service used against claim C1. -/
def nnC1 : NamespacedName := { Namespace := "a", Name := "b" }

/-- Pre-image under `nnC1`: one UDP port on cluster IP 10.0.0.1. -/
def preC1 : serviceChange :=
  [({ NamespacedName := nnC1, Port := "p", Protocol := .UDP },
    .base { defaultBaseInfo with clusterIP := "10.0.0.1", protocol := .UDP })]

/-- Post-image under `nnC1`: the same port name now TCP, so the UDP cluster
IP 10.0.0.1 no longer appears as UDP. -/
def postC1 : serviceChange :=
  [({ NamespacedName := nnC1, Port := "p", Protocol := .TCP },
    .base { defaultBaseInfo with clusterIP := "10.0.0.1", protocol := .TCP })]

/-- Snapshot holding `preC1` under `nnC1`. -/
def snapC1 : ServicesSnapshot := [(nnC1, preC1)]

/-- Key of the concrete service used against claim C2. -/
def nnC2 : NamespacedName := { Namespace := "c", Name := "d" }

/-- Pre-image under `nnC2`: one UDP port on cluster IP 10.0.0.2. -/
def preC2 : serviceChange :=
  [({ NamespacedName := nnC2, Port := "q", Protocol := .UDP },
    .base { defaultBaseInfo with clusterIP := "10.0.0.2", protocol := .UDP })]

/-- Snapshot holding `preC2` under `nnC2`. -/
def snapC2 : ServicesSnapshot := [(nnC2, preC2)]

/-- The spec's S2 service: `{ns:a, name:b, cluster_ips.v4:[10.0.0.1],
ports:[{name:p, port:53, protocol:UDP}]}`. -/
def svcS2 : Service :=
  { Namespace := "a"
    Name := "b"
    Type' := "ClusterIP"
    Annotations := []
    IPs := { ClusterIPs := { V4 := ["10.0.0.1"], V6 := [] }
             ExternalIPs := { V4 := [], V6 := [] }
             LoadBalancerIPs := none }
    IPFilters := []
    Ports := [{ Name := "p", Protocol := .UDP, Port := 53, TargetPort := 53
                TargetPortName := "", NodePort := 0 }]
    SessionAffinity := none
    ExternalTrafficToLocal := false }

/-- Key of the concrete entries used against claim C4. -/
def nnC4 : NamespacedName := { Namespace := "hcns", Name := "hcbase" }

/-- A bare (undecorated) port with a non-zero health-check node port. -/
def infoC4 : BaseServiceInfo := { defaultBaseInfo with healthCheckNodePort := 5 }

/-- Port name key for the C4 entries. -/
def spnC4 : ServicePortName := { NamespacedName := nnC4, Port := "p", Protocol := .TCP }

/-- Snapshot whose only port is a bare `*BaseServiceInfo` with
health-check node port 5. -/
def snapC4 : ServicesSnapshot := [(nnC4, [(spnC4, .base infoC4)])]

/-- Key of the decorated C4 witness entry. -/
def nnC4w : NamespacedName := { Namespace := "hcns", Name := "hcsvc" }

/-- A decorated port with health-check node port 7. -/
def infoC4w : BaseServiceInfo := { defaultBaseInfo with healthCheckNodePort := 7 }

/-- Port name key for the decorated C4 witness entry. -/
def spnC4w : ServicePortName := { NamespacedName := nnC4w, Port := "p", Protocol := .TCP }

/-- Snapshot whose only port is a decorated `*serviceInfo` with
health-check node port 7. -/
def snapC4w : ServicesSnapshot := [(nnC4w, [(spnC4w, .svcInfo infoC4w "x")])]

/-- An ExternalName service that nevertheless carries an IPv4 cluster IP
and one TCP port. -/
def svcC5 : Service :=
  { Namespace := "e"
    Name := "f"
    Type' := "ExternalName"
    Annotations := []
    IPs := { ClusterIPs := { V4 := ["10.0.0.3"], V6 := [] }
             ExternalIPs := { V4 := [], V6 := [] }
             LoadBalancerIPs := none }
    IPFilters := []
    Ports := [{ Name := "p", Protocol := .TCP, Port := 80, TargetPort := 0
                TargetPortName := "", NodePort := 0 }]
    SessionAffinity := none
    ExternalTrafficToLocal := false }

/-- A service with no cluster IPs at all (headless). -/
def svcC5e : Service :=
  { Namespace := "e"
    Name := "g"
    Type' := "ClusterIP"
    Annotations := []
    IPs := { ClusterIPs := { V4 := [], V6 := [] }
             ExternalIPs := { V4 := [], V6 := [] }
             LoadBalancerIPs := none }
    IPFilters := []
    Ports := [{ Name := "p", Protocol := .TCP, Port := 80, TargetPort := 0
                TargetPortName := "", NodePort := 0 }]
    SessionAffinity := none
    ExternalTrafficToLocal := false }

/-- Indexing after map assignment: the assigned key reads the new value,
any other key is untouched. -/
theorem lookupKV_insertKV {K V : Type} [DecidableEq K] (m : GoMap K V) (k k' : K) (v : V) :
    lookupKV (insertKV m k v) k' = if k' = k then some v else lookupKV m k' := by
  induction m with
  | nil =>
    simp only [insertKV, lookupKV]
    by_cases h : k = k'
    · subst h; simp
    · rw [if_neg h, if_neg (fun hh => h hh.symm)]
  | cons e rest ih =>
    simp only [insertKV]
    by_cases he : e.1 = k
    · rw [if_pos he]
      simp only [lookupKV]
      by_cases h : k = k'
      · subst h; rw [if_pos rfl, if_pos rfl]
      · rw [if_neg h, if_neg (fun hh => h hh.symm), if_neg (fun hh => h (he.symm.trans hh))]
    · rw [if_neg he]
      simp only [lookupKV, ih]
      by_cases h : e.1 = k'
      · rw [if_pos h, if_pos h, if_neg (fun hh => he (h.trans hh))]
      · rw [if_neg h, if_neg h]

/-- Assigning the same key twice keeps only the last value. -/
theorem insertKV_overwrite {K V : Type} [DecidableEq K] (m : GoMap K V) (k : K) (v w : V) :
    insertKV (insertKV m k v) k w = insertKV m k w := by
  induction m with
  | nil => simp [insertKV]
  | cons e rest ih =>
    by_cases h : e.1 = k
    · simp [insertKV, h]
    · simp [insertKV, h, ih]

/-- Map assignment never drops a key that was readable before. -/
theorem lookupKV_isSome_insertKV {K V : Type} [DecidableEq K] (m : GoMap K V)
    (k k' : K) (v : V) (h : (lookupKV m k').isSome = true) :
    (lookupKV (insertKV m k v) k').isSome = true := by
  rw [lookupKV_insertKV]
  by_cases hk : k' = k
  · rw [if_pos hk]; rfl
  · rw [if_neg hk]; exact h

/-- One scan step never drops a readable key. -/
theorem hcFromPort_mono (acc : GoMap NamespacedName Int) (nn : NamespacedName)
    (sp : ServicePort) (k : NamespacedName) (h : (lookupKV acc k).isSome = true) :
    (lookupKV (hcFromPort acc nn sp) k).isSome = true := by
  cases sp with
  | base i => exact h
  | svcInfo info sname =>
    simp only [hcFromPort]
    by_cases hz : info.healthCheckNodePort ≠ 0
    · rw [if_pos hz]; exact lookupKV_isSome_insertKV _ _ _ _ h
    · rw [if_neg hz]; exact h

/-- Scanning one snapshot entry never drops a readable key. -/
theorem hcFromChange_mono (m : serviceChange) (acc : GoMap NamespacedName Int)
    (nn : NamespacedName) (k : NamespacedName) (h : (lookupKV acc k).isSome = true) :
    (lookupKV (hcFromChange acc nn m) k).isSome = true := by
  induction m generalizing acc with
  | nil => exact h
  | cons e rest ih =>
    simp only [hcFromChange, List.foldl_cons] at ih ⊢
    exact ih _ (hcFromPort_mono _ _ _ _ h)

/-- Scanning the whole snapshot never drops a readable key. -/
theorem hcScanAux_mono (snapList : ServicesSnapshot) (acc : GoMap NamespacedName Int)
    (k : NamespacedName) (h : (lookupKV acc k).isSome = true) :
    (lookupKV (hcScanAux acc snapList) k).isSome = true := by
  induction snapList generalizing acc with
  | nil => exact h
  | cons e rest ih =>
    simp only [hcScanAux, List.foldl_cons] at ih ⊢
    exact ih _ (hcFromChange_mono _ _ _ _ h)

/-- A decorated port with a non-zero health-check node port makes its key
readable after scanning its entry. -/
theorem hcFromChange_complete (m : serviceChange) (acc : GoMap NamespacedName Int)
    (nn : NamespacedName) (spn : ServicePortName) (info : BaseServiceInfo)
    (sname : String) (hm : (spn, ServicePort.svcInfo info sname) ∈ m)
    (hhc : info.healthCheckNodePort ≠ 0) :
    (lookupKV (hcFromChange acc nn m) nn).isSome = true := by
  induction m generalizing acc with
  | nil => cases hm
  | cons e rest ih =>
    simp only [hcFromChange, List.foldl_cons] at ih ⊢
    rcases List.mem_cons.mp hm with he | hrest
    · have hstep : (lookupKV (hcFromPort acc nn e.2) nn).isSome = true := by
        rw [← he]
        show (lookupKV (hcFromPort acc nn (ServicePort.svcInfo info sname)) nn).isSome = true
        simp only [hcFromPort]
        rw [if_pos hhc, lookupKV_insertKV, if_pos rfl]
        rfl
      exact hcFromChange_mono rest _ nn nn hstep
    · exact ih _ hrest

/-- A decorated port with a non-zero health-check node port anywhere in the
snapshot makes its service key readable after the full scan. -/
theorem hcScanAux_complete (snapList : ServicesSnapshot)
    (acc : GoMap NamespacedName Int) (nn : NamespacedName) (m : serviceChange)
    (spn : ServicePortName) (info : BaseServiceInfo) (sname : String)
    (hsnap : (nn, m) ∈ snapList) (hm : (spn, ServicePort.svcInfo info sname) ∈ m)
    (hhc : info.healthCheckNodePort ≠ 0) :
    (lookupKV (hcScanAux acc snapList) nn).isSome = true := by
  induction snapList generalizing acc with
  | nil => cases hsnap
  | cons e rest ih =>
    simp only [hcScanAux, List.foldl_cons] at ih ⊢
    rcases List.mem_cons.mp hsnap with he | hrest
    · have hstep : (lookupKV (hcFromChange acc e.1 e.2) nn).isSome = true := by
        rw [← he]
        exact hcFromChange_complete m acc nn spn info sname hm hhc
      exact hcScanAux_mono rest _ nn hstep
    · exact ih _ hrest

/-- What one scan step can put under a key: either it was already there, or
the step's port is a decorated one with a non-zero health-check node port
and the key is the scanned service's. -/
theorem hcFromPort_sound (acc : GoMap NamespacedName Int) (nn : NamespacedName)
    (sp : ServicePort) (k : NamespacedName) (p : Int)
    (h : lookupKV (hcFromPort acc nn sp) k = some p) :
    lookupKV acc k = some p ∨
      (k = nn ∧ ∃ info sname, sp = ServicePort.svcInfo info sname ∧
        info.healthCheckNodePort ≠ 0 ∧ p = info.healthCheckNodePort % 65536) := by
  cases sp with
  | base i => exact .inl h
  | svcInfo info sname =>
    simp only [hcFromPort] at h
    by_cases hz : info.healthCheckNodePort ≠ 0
    · rw [if_pos hz, lookupKV_insertKV] at h
      by_cases hk : k = nn
      · rw [if_pos hk] at h
        exact .inr ⟨hk, info, sname, rfl, hz, (Option.some.inj h).symm⟩
      · rw [if_neg hk] at h
        exact .inl h
    · rw [if_neg hz] at h
      exact .inl h

/-- What scanning one snapshot entry can put under a key. -/
theorem hcFromChange_sound (m : serviceChange) (acc : GoMap NamespacedName Int)
    (nn : NamespacedName) (k : NamespacedName) (p : Int)
    (h : lookupKV (hcFromChange acc nn m) k = some p) :
    lookupKV acc k = some p ∨
      (k = nn ∧ ∃ spn info sname, (spn, ServicePort.svcInfo info sname) ∈ m ∧
        info.healthCheckNodePort ≠ 0 ∧ p = info.healthCheckNodePort % 65536) := by
  induction m generalizing acc with
  | nil => exact .inl h
  | cons e rest ih =>
    simp only [hcFromChange, List.foldl_cons] at h
    rcases ih _ h with ha | ⟨hk, spn, info, sname, hmem, hz, hp⟩
    · rcases hcFromPort_sound acc nn e.2 k p ha with h0 | ⟨hk, info, sname, hsp, hz, hp⟩
      · exact .inl h0
      · refine .inr ⟨hk, e.1, info, sname, ?_, hz, hp⟩
        rw [← hsp]
        exact List.mem_cons_self e rest
    · exact .inr ⟨hk, spn, info, sname, List.mem_cons_of_mem _ hmem, hz, hp⟩

/-- What the full scan can put under a key: some decorated port with a
non-zero health-check node port stored under that key in the snapshot. -/
theorem hcScanAux_sound (snapList : ServicesSnapshot)
    (acc : GoMap NamespacedName Int) (k : NamespacedName) (p : Int)
    (h : lookupKV (hcScanAux acc snapList) k = some p) :
    lookupKV acc k = some p ∨
      ∃ m spn info sname, (k, m) ∈ snapList ∧
        (spn, ServicePort.svcInfo info sname) ∈ m ∧
        info.healthCheckNodePort ≠ 0 ∧ p = info.healthCheckNodePort % 65536 := by
  induction snapList generalizing acc with
  | nil => exact .inl h
  | cons e rest ih =>
    simp only [hcScanAux, List.foldl_cons] at h
    rcases ih _ h with ha | ⟨m, spn, info, sname, hmem, hpm, hz, hp⟩
    · rcases hcFromChange_sound e.2 acc e.1 k p ha with h0 | ⟨hk, spn, info, sname, hmem, hz, hp⟩
      · exact .inl h0
      · refine .inr ⟨e.2, spn, info, sname, ?_, hmem, hz, hp⟩
        rw [hk]
        have : (e.1, e.2) = e := rfl
        rw [this]
        exact List.mem_cons_self e rest
    · exact .inr ⟨m, spn, info, sname, List.mem_cons_of_mem _ hmem, hpm, hz, hp⟩

/-- C1 counterexample: a snapshot whose entry under (a, b) holds one UDP
port on cluster IP 10.0.0.1 is merged in place with a non-nil change whose
only port is TCP, so 10.0.0.1 no longer appears as the cluster IP of a UDP
port in the post-image; yet the merge adds nothing to
`udp_stale_cluster_ips`, refuting the claim. -/
theorem merge_inplace_udp_stale_counterexample :
    udpClusterIPsOfChange preC1 = ["10.0.0.1"]
    ∧ udpClusterIPsOfChange postC1 = []
    ∧ lookupKV snapC1 nnC1 = some preC1
    ∧ (ServicesSnapshot.merge snapC1 nnC1 (some postC1) []).2 = [] := by
  decide

/-- C1 (amended): applying a pending change for key K that is a non-nil
mapping replaces the snapshot entry under K wholesale and adds nothing to
`udp_stale_cluster_ips`; stale UDP cluster IPs are recorded only on the nil
deletion sentinel. -/
theorem merge_nonnil_replaces_wholesale (svcSnap : ServicesSnapshot)
    (svcName : NamespacedName) (m : serviceChange) (udpStale : List String) :
    ServicesSnapshot.merge svcSnap svcName (some m) udpStale
      = (insertKV svcSnap svcName m, udpStale) :=
  rfl

/-- C2 counterexample: under key (c, d) the snapshot holds one UDP port on
cluster IP 10.0.0.2.  Applying the empty non-nil mapping stores the empty
entry, keeps the key present and records no stale IP, while the nil
deletion sentinel removes the key and records 10.0.0.2 — the two changes
are not treated the same, refuting the claim. -/
theorem merge_empty_change_counterexample :
    (ServicesSnapshot.merge snapC2 nnC2 (some []) []).2 = []
    ∧ lookupKV (ServicesSnapshot.merge snapC2 nnC2 (some []) []).1 nnC2 = some []
    ∧ (ServicesSnapshot.merge snapC2 nnC2 none []).2 = ["10.0.0.2"]
    ∧ lookupKV (ServicesSnapshot.merge snapC2 nnC2 none []).1 nnC2 = none := by
  decide

/-- C2 (amended): applying an empty non-nil mapping for key K is a plain
wholesale replacement like any other non-nil change: K stays present bound
to the empty entry and nothing is added to `udp_stale_cluster_ips`; only
the nil sentinel deletes K and collects the stale UDP cluster IPs. -/
theorem merge_empty_change_replaces (svcSnap : ServicesSnapshot)
    (svcName : NamespacedName) (udpStale : List String) :
    ServicesSnapshot.merge svcSnap svcName (some ([] : serviceChange)) udpStale
      = (insertKV svcSnap svcName [], udpStale)
    ∧ lookupKV (insertKV svcSnap svcName ([] : serviceChange)) svcName = some [] := by
  refine ⟨rfl, ?_⟩
  rw [lookupKV_insertKV, if_pos rfl]

/-- C6: after any sequence of Update/Delete calls followed by one Apply
(`ServicesSnapshot.Update`), the tracker's pending items map is empty. -/
theorem apply_clears_pending (svcSnap : ServicesSnapshot)
    (sct : ServiceChangeTracker) (ops : List TrackerOp) :
    (ServicesSnapshot.Update svcSnap (runOps sct ops)).tracker.items = [] :=
  rfl

/-- C8: `construct` fails exactly when `maxInterval < minInterval` or the
injected timer is nil, and succeeds for every other configuration. -/
theorem construct_ok_iff (name : String) (minInterval maxInterval burstRuns : Int)
    (timer : Option TimerModel) :
    exceptIsOk (construct name minInterval maxInterval burstRuns timer) = true ↔
      (minInterval ≤ maxInterval ∧ timer.isSome = true) := by
  unfold construct
  by_cases h : maxInterval < minInterval
  · rw [if_pos h]
    constructor
    · intro hk; cases hk
    · intro hk; omega
  · rw [if_neg h]
    cases timer with
    | none =>
      constructor
      · intro hk; cases hk
      · intro hk; cases hk.2
    | some t =>
      constructor
      · intro _; exact ⟨by omega, rfl⟩
      · intro _; rfl

/-- C10: `ChangeTracker.Update` with a nil service returns false and leaves
the tracker — its pending items included — completely unchanged. -/
theorem update_nil_noop (sct : ServiceChangeTracker) :
    ServiceChangeTracker.Update sct none = (false, sct) :=
  rfl

/-- Materialization reads only the tracker's family and decoration hook,
never its pending items. -/
theorem serviceToServiceMap_ignores_items
    (items items' : GoMap NamespacedName (Option serviceChange))
    (msi : Option makeServicePortFunc) (fam : IPFamily) (v : Option Service) :
    ServiceChangeTracker.serviceToServiceMap ⟨items', msi, fam⟩ v
      = ServiceChangeTracker.serviceToServiceMap ⟨items, msi, fam⟩ v := by
  cases v <;> rfl

/-- On the total model, `Update` stores the full recomputed port set under
(namespace, name), overwriting any prior pending entry, so a second
`Update(S)` before an Apply changes nothing: the tracker after two updates
equals the tracker after one, and the two Apply outcomes coincide. -/
theorem update_idempotent_before_apply (sct : ServiceChangeTracker) (S : Service)
    (svcSnap : ServicesSnapshot) :
    ((sct.Update (some S)).2.Update (some S)).2 = (sct.Update (some S)).2
    ∧ lookupKV (sct.Update (some S)).2.items { Namespace := S.Namespace, Name := S.Name }
        = some (some (sct.serviceToServiceMap (some S)))
    ∧ ServicesSnapshot.Update svcSnap ((sct.Update (some S)).2.Update (some S)).2
        = ServicesSnapshot.Update svcSnap (sct.Update (some S)).2 := by
  obtain ⟨items, msi, fam⟩ := sct
  have h1 : ((ServiceChangeTracker.Update ⟨items, msi, fam⟩ (some S)).2.Update (some S)).2
      = (ServiceChangeTracker.Update ⟨items, msi, fam⟩ (some S)).2 := by
    simp only [ServiceChangeTracker.Update]
    rw [serviceToServiceMap_ignores_items items
      (insertKV items { Namespace := S.Namespace, Name := S.Name }
        (some (ServiceChangeTracker.serviceToServiceMap ⟨items, msi, fam⟩ (some S))))
      msi fam (some S)]
    rw [insertKV_overwrite]
  refine ⟨h1, ?_, congrArg (ServicesSnapshot.Update svcSnap) h1⟩
  simp only [ServiceChangeTracker.Update]
  rw [lookupKV_insertKV, if_pos rfl]

/-- C5 counterexample: an ExternalName service carrying an IPv4 cluster IP
is skippable per `ShouldSkipService`, yet the tracker materializes a
non-empty ServiceChange for it (one entry for its one port), refuting the
claim that every skippable service produces an empty change. -/
theorem skippable_externalname_materializes_counterexample :
    ShouldSkipService svcC5 = true
    ∧ (sctEmptyV4.serviceToServiceMap (some svcC5)).length = 1
    ∧ sctEmptyV4.serviceToServiceMap (some svcC5) ≠ [] := by
  decide

/-- C5 (amended): `ShouldSkipService` holds exactly when the cluster IP set
is empty or the type is ExternalName; a service whose cluster IP for the
tracker's family is absent materializes to the empty (nil) ServiceChange.
(An ExternalName service that still has a cluster IP of the family does
materialize ports — the iptables tracker never consults skippability.) -/
theorem skippable_and_empty_materialization (sct : ServiceChangeTracker) (svc : Service) :
    (ShouldSkipService svc = true ↔
      (IsServiceIPSet svc = false ∨ svc.Type' = "ExternalName"))
    ∧ (GetClusterIPByFamily sct.ipFamily svc = "" →
        sct.serviceToServiceMap (some svc) = []) := by
  constructor
  · unfold ShouldSkipService
    split_ifs with h1 h2 <;> simp_all
  · intro h
    simp only [ServiceChangeTracker.serviceToServiceMap]
    rw [if_pos h]

/-- C5 witness: the headless service `svcC5e` has no IPv4 cluster IP, is
skippable, and materializes to the empty change. -/
theorem skippable_and_empty_materialization_witness :
    GetClusterIPByFamily sctEmptyV4.ipFamily svcC5e = ""
    ∧ sctEmptyV4.serviceToServiceMap (some svcC5e) = []
    ∧ ShouldSkipService svcC5e = true := by
  refine ⟨rfl, (skippable_and_empty_materialization sctEmptyV4 svcC5e).2 rfl, ?_⟩
  exact (skippable_and_empty_materialization sctEmptyV4 svcC5e).1.mpr (Or.inl (by decide))

/-- The retry deadline update never moves the pending fire later. -/
theorem doRetry_timerNext_le (s : RunnerState) :
    (s.doRetry).timerNext ≤ s.timerNext := by
  obtain ⟨now, timerNext, retryTime⟩ := s
  cases retryTime with
  | none => exact le_refl _
  | some rt =>
    simp only [RunnerState.doRetry, RunnerState.Remaining]
    split_ifs with h
    · show now + (rt - now) ≤ timerNext
      omega
    · exact le_refl _

/-- `RetryAfter` only records a retry time; the clock and the pending
deadline are untouched. -/
theorem RetryAfter_preserves_timer (s : RunnerState) (d : Int) :
    (s.RetryAfter d).timerNext = s.timerNext ∧ (s.RetryAfter d).now = s.now := by
  obtain ⟨now, timerNext, retryTime⟩ := s
  cases retryTime with
  | none => exact ⟨rfl, rfl⟩
  | some rt =>
    simp only [RunnerState.RetryAfter]
    split_ifs with h
    · exact ⟨rfl, rfl⟩
    · exact ⟨rfl, rfl⟩

/-- `doRetry` on a recorded retry time: reset exactly when the retry
interval is strictly below the remaining time, else leave the deadline. -/
theorem doRetry_some_eq (now timerNext rt : Int) :
    (rt - now < timerNext - now →
      (RunnerState.doRetry
        { now := now, timerNext := timerNext, retryTime := some rt }).timerNext
        = now + (rt - now))
    ∧ (¬ rt - now < timerNext - now →
      (RunnerState.doRetry
        { now := now, timerNext := timerNext, retryTime := some rt }).timerNext
        = timerNext) := by
  constructor
  · intro hlt
    simp only [RunnerState.doRetry, RunnerState.Remaining]
    rw [if_pos hlt]
  · intro hge
    simp only [RunnerState.doRetry, RunnerState.Remaining]
    rw [if_neg hge]

/-- C9: processing a retry can only pull the next timer fire sooner.  The
deadline never moves later (also after any `RetryAfter(d)`); a recorded
retry resets the timer to the retry interval exactly when that interval is
strictly below the remaining time, and otherwise leaves the deadline
untouched; a cleared retry time is a no-op. -/
theorem doRetry_never_delays (s : RunnerState) (d : Int) :
    (s.doRetry).timerNext ≤ s.timerNext
    ∧ ((s.RetryAfter d).doRetry).timerNext ≤ s.timerNext
    ∧ (s.retryTime = none → s.doRetry = s)
    ∧ (∀ rt, s.retryTime = some rt →
        (rt - s.now < s.Remaining → (s.doRetry).timerNext = s.now + (rt - s.now))
        ∧ (¬ rt - s.now < s.Remaining → (s.doRetry).timerNext = s.timerNext)) := by
  refine ⟨doRetry_timerNext_le s, ?_, ?_, ?_⟩
  · have h2 := doRetry_timerNext_le (s.RetryAfter d)
    rw [(RetryAfter_preserves_timer s d).1] at h2
    exact h2
  · intro h
    obtain ⟨now, timerNext, retryTime⟩ := s
    cases retryTime with
    | none => rfl
    | some rt2 => exact Option.noConfusion h
  · intro rt hrt
    obtain ⟨now, timerNext, retryTime⟩ := s
    cases retryTime with
    | none => exact Option.noConfusion hrt
    | some rt2 =>
      have hr : rt2 = rt := Option.some.inj hrt
      subst hr
      exact doRetry_some_eq now timerNext rt2

/-- C9 witness: with the clock at 0, deadline at 10 and a recorded retry
time 3, processing the retry resets the deadline to 3; with no recorded
retry time the state is untouched. -/
theorem doRetry_never_delays_witness :
    (RunnerState.doRetry { now := 0, timerNext := 10, retryTime := some 3 }).timerNext
      = 0 + (3 - 0)
    ∧ RunnerState.doRetry { now := 0, timerNext := 10, retryTime := none }
        = { now := 0, timerNext := 10, retryTime := none } :=
  ⟨((doRetry_never_delays { now := 0, timerNext := 10, retryTime := some 3 } 0).2.2.2
      3 rfl).1 (by decide),
   (doRetry_never_delays { now := 0, timerNext := 10, retryTime := none } 0).2.2.1 rfl⟩

/-- C3: from empty state, Update(S); Apply; Delete(S.ns, S.name); Apply
leaves no snapshot entry under (S.ns, S.name).  The first Apply stores S's
materialized ports and reports no stale IPs; the second reports exactly the
(duplicate-free) set of UDP cluster IPs of those ports — so every UDP
cluster IP that ever existed for S appears exactly once across the two
Apply results.  In particular the spec's S2 service yields
`udp_stale_cluster_ips = ["10.0.0.1"]` on the second Apply. -/
theorem update_apply_delete_apply_stale_once (msi : Option makeServicePortFunc)
    (fam : IPFamily) (S : Service) :
    lookupKV (updateThenDeletePipeline msi fam S).2.snapshot
        { Namespace := S.Namespace, Name := S.Name } = none
    ∧ (updateThenDeletePipeline msi fam S).1.result.UDPStaleClusterIP = []
    ∧ (updateThenDeletePipeline msi fam S).2.result.UDPStaleClusterIP
        = udpClusterIPsOfChange
            ((NewServiceChangeTracker msi fam).serviceToServiceMap (some S))
    ∧ lookupKV (updateThenDeletePipeline msi fam S).1.snapshot
        { Namespace := S.Namespace, Name := S.Name }
        = some ((NewServiceChangeTracker msi fam).serviceToServiceMap (some S))
    ∧ (updateThenDeletePipeline none .IPv4 svcS2).2.result.UDPStaleClusterIP
        = ["10.0.0.1"] := by
  refine ⟨?_, ?_, ?_, ?_, by decide⟩ <;>
    simp [updateThenDeletePipeline, NewServiceChangeTracker, ServiceChangeTracker.Update,
      ServiceChangeTracker.Delete, ServicesSnapshot.Update, ServicesSnapshot.apply,
      ServicesSnapshot.merge, udpClusterIPsOfChange, insertKV, lookupKV, eraseKV]

/-- C4 counterexample: the post-apply snapshot stores (under (hcns,
hcbase)) a bare `*BaseServiceInfo` port whose health-check node port is 5,
yet `healthcheck_node_ports` has no entry for that key, because the scan's
type assertion to `*serviceInfo` fails and skips the port — refuting the
claim that every stored ServicePort with a non-zero health-check node port
gets an entry. -/
theorem hc_scan_skips_base_port_counterexample :
    (nnC4, [(spnC4, ServicePort.base infoC4)])
        ∈ (ServicesSnapshot.Update snapC4 sctEmptyV4).snapshot
    ∧ (ServicePort.base infoC4).HealthCheckNodePort = 5
    ∧ lookupKV (ServicesSnapshot.Update snapC4 sctEmptyV4).result.HCServiceNodePorts
        nnC4 = none := by
  decide

/-- C4 (amended): after every Apply, `healthcheck_node_ports` has an entry
for a key exactly on account of some decorated (`*serviceInfo`) port stored
under that key in the post-apply snapshot with a non-zero health-check node
port: every such port makes its key readable, and every recorded value is
the `uint16` of such a port's health-check node port.  Bare
`*BaseServiceInfo` ports are skipped by the scan's type assertion. -/
theorem hc_scan_decorated_ports_iff (svcSnap : ServicesSnapshot)
    (sct : ServiceChangeTracker) :
    (∀ nn m spn info sname,
        (nn, m) ∈ (ServicesSnapshot.Update svcSnap sct).snapshot →
        (spn, ServicePort.svcInfo info sname) ∈ m →
        info.healthCheckNodePort ≠ 0 →
        (lookupKV (ServicesSnapshot.Update svcSnap sct).result.HCServiceNodePorts
          nn).isSome = true)
    ∧ (∀ nn p,
        lookupKV (ServicesSnapshot.Update svcSnap sct).result.HCServiceNodePorts nn
          = some p →
        ∃ m spn info sname,
          (nn, m) ∈ (ServicesSnapshot.Update svcSnap sct).snapshot ∧
          (spn, ServicePort.svcInfo info sname) ∈ m ∧
          info.healthCheckNodePort ≠ 0 ∧ p = info.healthCheckNodePort % 65536) := by
  have hHC : (ServicesSnapshot.Update svcSnap sct).result.HCServiceNodePorts
      = hcScanAux [] (ServicesSnapshot.Update svcSnap sct).snapshot := rfl
  constructor
  · intro nn m spn info sname hsnap hm hz
    rw [hHC]
    exact hcScanAux_complete _ [] nn m spn info sname hsnap hm hz
  · intro nn p hp
    rw [hHC] at hp
    rcases hcScanAux_sound _ [] nn p hp with h0 | ⟨m, spn, info, sname, hmem, hpm, hz, hval⟩
    · exact absurd h0 (by simp [lookupKV])
    · exact ⟨m, spn, info, sname, hmem, hpm, hz, hval⟩

/-- C4 witness: a decorated port with health-check node port 7 stored under
(hcns, hcsvc) makes that key readable in `healthcheck_node_ports` after
Apply. -/
theorem hc_scan_decorated_ports_iff_witness :
    (lookupKV (ServicesSnapshot.Update snapC4w sctEmptyV4).result.HCServiceNodePorts
      nnC4w).isSome = true :=
  (hc_scan_decorated_ports_iff snapC4w sctEmptyV4).1 nnC4w
    [(spnC4w, ServicePort.svcInfo infoC4w "x")] spnC4w infoC4w "x"
    (by decide) (by decide) (by decide)

/-- Away from the nil sentinel, the faithful fallible `UpdateE` succeeds
and agrees with the total `Update`. -/
theorem updateE_some_eq (sct : ServiceChangeTracker) (S : Service)
    (h : lookupKV sct.items { Namespace := S.Namespace, Name := S.Name } ≠ some none) :
    sct.UpdateE (some S) = .ok (sct.Update (some S)) := by
  cases hl : lookupKV sct.items { Namespace := S.Namespace, Name := S.Name } with
  | none =>
    unfold ServiceChangeTracker.UpdateE ServiceChangeTracker.Update
    dsimp only
    rw [hl]
  | some o =>
    cases o with
    | none => exact absurd hl h
    | some m =>
      unfold ServiceChangeTracker.UpdateE ServiceChangeTracker.Update
      dsimp only
      rw [hl]

/-- `UpdateE` on a real service panics exactly when the pending entry under
the service's key is the nil deletion sentinel. -/
theorem updateE_error_iff (sct : ServiceChangeTracker) (S : Service) :
    exceptIsOk (sct.UpdateE (some S)) = false ↔
      lookupKV sct.items { Namespace := S.Namespace, Name := S.Name } = some none := by
  simp only [ServiceChangeTracker.UpdateE]
  cases hl : lookupKV sct.items { Namespace := S.Namespace, Name := S.Name } with
  | none =>
    constructor
    · intro hk; cases hk
    · intro hk; cases hk
  | some o =>
    cases o with
    | none => exact ⟨fun _ => rfl, fun _ => rfl⟩
    | some m =>
      constructor
      · intro hk; cases hk
      · intro hk; cases hk

/-- C7 counterexample: `Delete` leaves the nil sentinel under (a, b); the
Go `Update` for the same key then finds the entry with ok==true and
assigns through the nil `*serviceChange`, panicking instead of overwriting
— the faithful embedding returns an error, refuting the claim for this
reachable starting state. -/
theorem update_after_delete_panics_counterexample :
    lookupKV (sctEmptyV4.Delete "a" "b").2.items { Namespace := "a", Name := "b" }
      = some none
    ∧ exceptIsOk ((sctEmptyV4.Delete "a" "b").2.UpdateE (some svcS2)) = false := by
  decide

/-- C7 (amended): for every starting state whose pending entry under
(S.ns, S.name) is not the nil deletion sentinel, `Update(S)` succeeds
(`UpdateE` agrees with the total `Update`) and stores the full recomputed
port set overwriting any prior pending entry; the entry it leaves is
non-nil, so a second `Update(S)` before an Apply also succeeds and changes
nothing, and Apply(Update(S); Update(S)) equals Apply(Update(S)).  (When
the entry is the nil sentinel, `Update` panics instead — see the
counterexample.) -/
theorem update_idempotent_unless_deleted (sct : ServiceChangeTracker) (S : Service)
    (svcSnap : ServicesSnapshot)
    (h : lookupKV sct.items { Namespace := S.Namespace, Name := S.Name } ≠ some none) :
    sct.UpdateE (some S) = .ok (sct.Update (some S))
    ∧ (sct.Update (some S)).2.UpdateE (some S)
        = .ok ((sct.Update (some S)).2.Update (some S))
    ∧ ((sct.Update (some S)).2.Update (some S)).2 = (sct.Update (some S)).2
    ∧ lookupKV (sct.Update (some S)).2.items { Namespace := S.Namespace, Name := S.Name }
        = some (some (sct.serviceToServiceMap (some S)))
    ∧ ServicesSnapshot.Update svcSnap ((sct.Update (some S)).2.Update (some S)).2
        = ServicesSnapshot.Update svcSnap (sct.Update (some S)).2 := by
  have hbase := update_idempotent_before_apply sct S svcSnap
  refine ⟨updateE_some_eq sct S h, ?_, hbase.1, hbase.2.1, hbase.2.2⟩
  apply updateE_some_eq
  rw [hbase.2.1]
  simp

/-- C7 witness: from the empty tracker — no sentinel under (a, b) — both
Updates of the S2 service succeed and the second changes nothing. -/
theorem update_idempotent_unless_deleted_witness :
    sctEmptyV4.UpdateE (some svcS2) = .ok (sctEmptyV4.Update (some svcS2))
    ∧ ((sctEmptyV4.Update (some svcS2)).2.Update (some svcS2)).2
        = (sctEmptyV4.Update (some svcS2)).2 :=
  ⟨(update_idempotent_unless_deleted sctEmptyV4 svcS2 [] (by decide)).1,
   (update_idempotent_unless_deleted sctEmptyV4 svcS2 [] (by decide)).2.2.1⟩
